import Mathlib

/-!
Verification of the MESMTF expert-system core
(src/backend/controllers/diagnosisController.js and the diagnosis route's
validation chain), shallowly embedded in Lean 4.

JavaScript strings are embedded as `String`, absent/undefined fields as
`Option`, arrays as `List`, and the Express handler for the standalone
assessment endpoint as a pure function into `Except ValidationError _`.
-/

namespace MESMTF

/-- JavaScript's `String.prototype.toLowerCase()` on the ASCII symptom
vocabulary: lower-case every character.  (Lean's own `String.toLower` is the
same character map but is defined by well-founded recursion over byte
positions, which the kernel cannot evaluate; mapping over the character list
is the evaluable equivalent.) -/
def toLowerCase (s : String) : String := ⟨s.data.map Char.toLower⟩

/-- One entry of the submitted `symptoms` array:
`{ symptom: string, severity?: string, duration?: string }`. -/
structure SymptomEntry where
  symptom : String
  severity : Option String := none
  duration : Option String := none
deriving Repr, DecidableEq

/-- `malariaSymptoms` constant from diagnosisController.js (lines 7-10). -/
def malariaSymptoms : List String :=
  ["fever", "chills", "headache", "muscle aches", "fatigue", "nausea", "vomiting",
   "diarrhea", "abdominal pain", "sweating", "shivering"]

/-- `typhoidSymptoms` constant from diagnosisController.js (lines 12-15). -/
def typhoidSymptoms : List String :=
  ["fever", "headache", "weakness", "stomach pain", "constipation", "diarrhea",
   "loss of appetite", "rash", "enlarged spleen", "rose spots", "dry cough"]

/-- Malaria lab-result sub-object `{ rapidTest?, microscopy? }`; each field is a
free string in the source (`'positive' | 'negative' | 'not-done'` by schema). -/
structure MalariaTestResults where
  rapidTest : Option String := none
  microscopy : Option String := none
deriving Repr, DecidableEq

/-- Typhoid lab-result sub-object `{ widalTest?, bloodCulture? }`. -/
structure TyphoidTestResults where
  widalTest : Option String := none
  bloodCulture : Option String := none
deriving Repr, DecidableEq

/-- Result `{ riskLevel, score }` of `assessMalariaRisk` / `assessTyphoidRisk`. -/
structure RiskAssessment where
  riskLevel : String
  score : Nat
deriving Repr, DecidableEq

/-- `assessMalariaRisk(symptoms, testResults)` (diagnosisController.js lines
17-30).  `testResults?.rapidTest === 'positive'` is embedded as
`testResults.bind rapid = some "positive"`: an absent mapping or field compares
unequal, exactly as optional chaining does. -/
def assessMalariaRisk (symptoms : List SymptomEntry)
    (testResults : Option MalariaTestResults) : RiskAssessment :=
  let malariaScore :=
    (symptoms.filter (fun s => malariaSymptoms.contains (toLowerCase s.symptom))).length
  let riskLevel :=
    if malariaScore ≥ 5 ∨ testResults.bind (fun t => t.rapidTest) = some "positive"
        ∨ testResults.bind (fun t => t.microscopy) = some "positive" then "high"
    else if malariaScore ≥ 3 then "moderate"
    else "low"
  { riskLevel := riskLevel, score := malariaScore }

/-- `assessTyphoidRisk(symptoms, testResults)` (diagnosisController.js lines
32-45). -/
def assessTyphoidRisk (symptoms : List SymptomEntry)
    (testResults : Option TyphoidTestResults) : RiskAssessment :=
  let typhoidScore :=
    (symptoms.filter (fun s => typhoidSymptoms.contains (toLowerCase s.symptom))).length
  let riskLevel :=
    if typhoidScore ≥ 5 ∨ testResults.bind (fun t => t.widalTest) = some "positive"
        ∨ testResults.bind (fun t => t.bloodCulture) = some "positive" then "high"
    else if typhoidScore ≥ 3 then "moderate"
    else "low"
  { riskLevel := riskLevel, score := typhoidScore }

/-- The request body's `testResults` object of the standalone endpoint:
`{ malaria?: {...}, typhoid?: {...} }` (optional sub-objects). -/
structure TestResultsField where
  malaria : Option MalariaTestResults := none
  typhoid : Option TyphoidTestResults := none
deriving Repr, DecidableEq

/-- The raw `symptoms` field of a request body.  The handler guards
`!symptoms || !Array.isArray(symptoms) || symptoms.length === 0`; the first two
disjuncts are the `missing` (absent/null/undefined) and `notArray` (present but
not a JS array) cases, the third is `given []`. -/
inductive SymptomsField where
  | missing : SymptomsField
  | notArray : SymptomsField
  | given (entries : List SymptomEntry) : SymptomsField
deriving Repr, DecidableEq

/-- Request body of `POST /api/diagnosis/expert-system/assess`. -/
structure AssessRequestBody where
  symptoms : SymptomsField
  testResults : Option TestResultsField := none
deriving Repr, DecidableEq

/-- The single error kind the handler can signal on malformed input: the
`400 { success: false, error: ... }` response. -/
structure ValidationError where
  message : String
deriving Repr, DecidableEq

/-- One disease's entry in the endpoint's `data` object:
`{ riskLevel, score, matchingSymptoms, recommendation }`. -/
structure DiseaseAssessmentView where
  riskLevel : String
  score : Nat
  matchingSymptoms : List String
  recommendation : String
deriving Repr, DecidableEq

/-- The endpoint's `data` object: `{ malaria: {...}, typhoid: {...} }`. -/
structure AssessmentData where
  malaria : DiseaseAssessmentView
  typhoid : DiseaseAssessmentView
deriving Repr, DecidableEq

/-- The Recommendation Mapper for malaria, the ternary chain
`riskLevel === 'high' ? ... : riskLevel === 'moderate' ? ... : ...` that
appears verbatim in both `createDiagnosis` and `getExpertSystemAssessment`. -/
def malariaRecommendation (riskLevel : String) : String :=
  if riskLevel = "high" then "Immediate malaria testing and treatment recommended"
  else if riskLevel = "moderate" then "Consider malaria testing"
  else "Low malaria risk"

/-- The Recommendation Mapper for typhoid (same ternary chain, typhoid texts). -/
def typhoidRecommendation (riskLevel : String) : String :=
  if riskLevel = "high" then "Immediate typhoid testing and treatment recommended"
  else if riskLevel = "moderate" then "Consider typhoid testing"
  else "Low typhoid risk"

/-- `getExpertSystemAssessment` (diagnosisController.js lines 377-425): guard
on the `symptoms` field, then assemble both disease views.  `testResults?.malaria`
and `testResults?.typhoid` are the optional-chained accesses of the source. -/
def getExpertSystemAssessment (body : AssessRequestBody) :
    Except ValidationError AssessmentData :=
  match body.symptoms with
  | .missing => .error { message := "Symptoms array is required" }
  | .notArray => .error { message := "Symptoms array is required" }
  | .given symptoms =>
    if symptoms.length = 0 then .error { message := "Symptoms array is required" }
    else
      let malariaAssessment :=
        assessMalariaRisk symptoms (body.testResults.bind (fun t => t.malaria))
      let typhoidAssessment :=
        assessTyphoidRisk symptoms (body.testResults.bind (fun t => t.typhoid))
      .ok {
        malaria := {
          riskLevel := malariaAssessment.riskLevel
          score := malariaAssessment.score
          matchingSymptoms :=
            (symptoms.filter (fun s =>
              malariaSymptoms.contains (toLowerCase s.symptom))).map (fun s => s.symptom)
          recommendation :=
            if malariaAssessment.riskLevel = "high" then
              "Immediate malaria testing and treatment recommended"
            else if malariaAssessment.riskLevel = "moderate" then
              "Consider malaria testing"
            else "Low malaria risk" }
        typhoid := {
          riskLevel := typhoidAssessment.riskLevel
          score := typhoidAssessment.score
          matchingSymptoms :=
            (symptoms.filter (fun s =>
              typhoidSymptoms.contains (toLowerCase s.symptom))).map (fun s => s.symptom)
          recommendation :=
            if typhoidAssessment.riskLevel = "high" then
              "Immediate typhoid testing and treatment recommended"
            else if typhoidAssessment.riskLevel = "moderate" then
              "Consider typhoid testing"
            else "Low typhoid risk" } }

/-- Caller-supplied `malariaAssessment` sub-object of a diagnosis body
(Diagnosis schema: `riskLevel`, `testResults`, `species`). -/
structure MalariaAssessmentSub where
  riskLevel : Option String := none
  testResults : Option MalariaTestResults := none
  species : Option String := none
deriving Repr, DecidableEq

/-- Caller-supplied `typhoidAssessment` sub-object of a diagnosis body
(Diagnosis schema: `riskLevel`, `testResults`). -/
structure TyphoidAssessmentSub where
  riskLevel : Option String := none
  testResults : Option TyphoidTestResults := none
deriving Repr, DecidableEq

/-- Request body of `POST /api/diagnosis` (`createDiagnosis`).  `doctor` is not
a body field here: the controller always writes `doctor: req.user.id` over the
spread, so the authenticated user id is a separate parameter of
`createDiagnosisData`.  `diagnosis`, `treatment`, `followUp`, `status` and
`notes` stand for the remaining clinician-entered top-level fields of the
Diagnosis schema, whose inner structure the expert system never touches. -/
structure DiagnosisBody where
  patient : String
  appointment : String
  symptoms : List SymptomEntry
  malariaAssessment : Option MalariaAssessmentSub := none
  typhoidAssessment : Option TyphoidAssessmentSub := none
  diagnosis : Option String := none
  treatment : Option String := none
  followUp : Option String := none
  status : Option String := none
  notes : Option String := none
deriving Repr, DecidableEq

/-- A stored diagnosis document (the fields relevant to the assessment core). -/
structure DiagnosisDoc where
  patient : String
  doctor : String
  appointment : String
  symptoms : List SymptomEntry
  malariaAssessment : Option MalariaAssessmentSub := none
  typhoidAssessment : Option TyphoidAssessmentSub := none
  diagnosis : Option String := none
  treatment : Option String := none
  followUp : Option String := none
  status : Option String := none
  notes : Option String := none
deriving Repr, DecidableEq

/-- JS spread `{...req.body.malariaAssessment, riskLevel}`: spreading an
`undefined` sub-object yields `{ riskLevel }` alone; otherwise every field of
the sub-object is kept and `riskLevel` overwritten. -/
def spreadMalariaSub (sub : Option MalariaAssessmentSub) (rl : String) :
    MalariaAssessmentSub :=
  match sub with
  | none => { riskLevel := some rl }
  | some s => { s with riskLevel := some rl }

/-- JS spread `{...req.body.typhoidAssessment, riskLevel}`. -/
def spreadTyphoidSub (sub : Option TyphoidAssessmentSub) (rl : String) :
    TyphoidAssessmentSub :=
  match sub with
  | none => { riskLevel := some rl }
  | some s => { s with riskLevel := some rl }

/-- The `diagnosisData` object assembled by `createDiagnosis`
(diagnosisController.js lines 227-243): spread of `req.body`, `doctor` set to
the authenticated user, and each per-disease sub-object re-spread with the
computed `riskLevel`.  The expert system is invoked with
`req.body.malariaAssessment?.testResults` (resp. typhoid). -/
def createDiagnosisData (body : DiagnosisBody) (userId : String) : DiagnosisDoc :=
  let malariaAssessment :=
    assessMalariaRisk body.symptoms (body.malariaAssessment.bind (fun a => a.testResults))
  let typhoidAssessment :=
    assessTyphoidRisk body.symptoms (body.typhoidAssessment.bind (fun a => a.testResults))
  { patient := body.patient
    doctor := userId
    appointment := body.appointment
    symptoms := body.symptoms
    malariaAssessment := some (spreadMalariaSub body.malariaAssessment malariaAssessment.riskLevel)
    typhoidAssessment := some (spreadTyphoidSub body.typhoidAssessment typhoidAssessment.riskLevel)
    diagnosis := body.diagnosis
    treatment := body.treatment
    followUp := body.followUp
    status := body.status
    notes := body.notes }

/-- The `expertSystemRecommendations` object of the `createDiagnosis` 201
response (diagnosisController.js lines 254-275), per disease
`{ riskLevel, score, recommendation }` with the inline ternary chain. -/
def expertSystemRecommendations (symptoms : List SymptomEntry)
    (mSub : Option MalariaAssessmentSub) (tSub : Option TyphoidAssessmentSub) :
    RiskAssessment × String × RiskAssessment × String :=
  let malariaAssessment := assessMalariaRisk symptoms (mSub.bind (fun a => a.testResults))
  let typhoidAssessment := assessTyphoidRisk symptoms (tSub.bind (fun a => a.testResults))
  (malariaAssessment,
   (if malariaAssessment.riskLevel = "high" then
      "Immediate malaria testing and treatment recommended"
    else if malariaAssessment.riskLevel = "moderate" then "Consider malaria testing"
    else "Low malaria risk"),
   typhoidAssessment,
   (if typhoidAssessment.riskLevel = "high" then
      "Immediate typhoid testing and treatment recommended"
    else if typhoidAssessment.riskLevel = "moderate" then "Consider typhoid testing"
    else "Low typhoid risk"))

/-- Update body of `PUT /api/diagnosis/:id` (`updateDiagnosis`): any subset of
the top-level diagnosis fields may be present. -/
structure UpdateBody where
  patient : Option String := none
  appointment : Option String := none
  symptoms : Option (List SymptomEntry) := none
  malariaAssessment : Option MalariaAssessmentSub := none
  typhoidAssessment : Option TyphoidAssessmentSub := none
  diagnosis : Option String := none
  treatment : Option String := none
  followUp : Option String := none
  status : Option String := none
  notes : Option String := none
deriving Repr, DecidableEq

/-- `updateDiagnosis` persists via `Diagnosis.findByIdAndUpdate(id, req.body)`
(diagnosisController.js lines 308-347): Mongoose casts the plain body to a
`$set` of each top-level key present in it, replacing that key's stored value
wholesale (a supplied sub-object replaces the whole stored sub-object; absent
keys are left untouched).  No assessment function is invoked anywhere in
`updateDiagnosis`. -/
def applyUpdate (doc : DiagnosisDoc) (body : UpdateBody) : DiagnosisDoc :=
  { patient := body.patient.getD doc.patient
    doctor := doc.doctor
    appointment := body.appointment.getD doc.appointment
    symptoms := body.symptoms.getD doc.symptoms
    malariaAssessment :=
      match body.malariaAssessment with
      | none => doc.malariaAssessment
      | some s => some s
    typhoidAssessment :=
      match body.typhoidAssessment with
      | none => doc.typhoidAssessment
      | some s => some s
    diagnosis := if body.diagnosis.isSome then body.diagnosis else doc.diagnosis
    treatment := if body.treatment.isSome then body.treatment else doc.treatment
    followUp := if body.followUp.isSome then body.followUp else doc.followUp
    status := if body.status.isSome then body.status else doc.status
    notes := if body.notes.isSome then body.notes else doc.notes }

/-- One entry passes the route's `expertSystemValidation` chain (part of the
diagnosis router): `symptoms.*.symptom` must have length between 2 and 100,
and `symptoms.*.severity`, when present, must be mild, moderate or severe.
This chain only RECORDS errors on the request; `getExpertSystemAssessment`
never calls `validationResult`, so these rules are never enforced on that
route. -/
def expertSystemEntryValid (e : SymptomEntry) : Bool :=
  (2 ≤ e.symptom.length && e.symptom.length ≤ 100) &&
    (match e.severity with
     | none => true
     | some sev => sev == "mild" || sev == "moderate" || sev == "severe")

/-- Spec-side tier rule (claim C2's words): HIGH if raw score at least 5 or a
confirmatory lab test is positive; else MODERATE if score at least 3; else
LOW, first true wins. -/
def specRiskTier (score : Nat) (labPositive : Bool) : String :=
  if score ≥ 5 ∨ labPositive = true then "high"
  else if score ≥ 3 then "moderate"
  else "low"

/-- Spec-side: some malaria confirmatory test (rapidTest or microscopy) is
reported exactly as "positive". -/
def malariaLabPositive (tr : Option MalariaTestResults) : Bool :=
  tr.bind (fun t => t.rapidTest) == some "positive" ||
    tr.bind (fun t => t.microscopy) == some "positive"

/-- Spec-side: some typhoid confirmatory test (widalTest or bloodCulture) is
reported exactly as "positive". -/
def typhoidLabPositive (tr : Option TyphoidTestResults) : Bool :=
  tr.bind (fun t => t.widalTest) == some "positive" ||
    tr.bind (fun t => t.bloodCulture) == some "positive"

/-- The malaria component of an endpoint outcome (`none` when the request was
rejected). -/
def malariaOf (r : Except ValidationError AssessmentData) :
    Option DiseaseAssessmentView :=
  match r with
  | .ok d => some d.malaria
  | .error _ => none

/-- The typhoid component of an endpoint outcome. -/
def typhoidOf (r : Except ValidationError AssessmentData) :
    Option DiseaseAssessmentView :=
  match r with
  | .ok d => some d.typhoid
  | .error _ => none

/-- A stored diagnosis whose malaria assessment holds risk tier "high"
(concrete input for the update frame property). -/
def storedHighDoc : DiagnosisDoc :=
  { patient := "p1", doctor := "d1", appointment := "a1"
    symptoms := [{ symptom := "fever" }]
    malariaAssessment := some { riskLevel := some "high" }
    typhoidAssessment := some { riskLevel := some "low" } }

/-- An update body that supplies a `malariaAssessment` sub-object carrying only
`testResults` — no `riskLevel` field (concrete input for the update frame
property). -/
def labOnlyUpdateBody : UpdateBody :=
  { malariaAssessment := some { testResults := some { rapidTest := some "negative" } } }

end MESMTF

namespace MESMTF

/-- A symptom-entry filter commutes with projecting the names: filtering the
entries on a predicate of the name, then projecting, is projecting first and
filtering the names. -/
lemma filter_entries_map_symptom (cat : List String) (l : List SymptomEntry) :
    (l.filter (fun s => cat.contains (toLowerCase s.symptom))).map (fun s => s.symptom)
      = (l.map (fun s => s.symptom)).filter (fun n => cat.contains (toLowerCase n)) := by
  rw [List.filter_map]
  rfl

/-- The raw malaria score is the count of entries whose lowercased name is in
the malaria catalog. -/
lemma assessMalariaRisk_score (symptoms : List SymptomEntry)
    (tr : Option MalariaTestResults) :
    (assessMalariaRisk symptoms tr).score
      = symptoms.countP (fun s => malariaSymptoms.contains (toLowerCase s.symptom)) := by
  simp [assessMalariaRisk, List.countP_eq_length_filter]

/-- The raw typhoid score is the count of entries whose lowercased name is in
the typhoid catalog. -/
lemma assessTyphoidRisk_score (symptoms : List SymptomEntry)
    (tr : Option TyphoidTestResults) :
    (assessTyphoidRisk symptoms tr).score
      = symptoms.countP (fun s => typhoidSymptoms.contains (toLowerCase s.symptom)) := by
  simp [assessTyphoidRisk, List.countP_eq_length_filter]

/-- The malaria tier is the spec-side tier rule applied to the raw score and
the exact-match lab-positivity flag. -/
lemma assessMalariaRisk_riskLevel (symptoms : List SymptomEntry)
    (tr : Option MalariaTestResults) :
    (assessMalariaRisk symptoms tr).riskLevel
      = specRiskTier (assessMalariaRisk symptoms tr).score (malariaLabPositive tr) := by
  simp only [assessMalariaRisk, specRiskTier, malariaLabPositive, Bool.or_eq_true,
    beq_iff_eq]

/-- The typhoid tier is the spec-side tier rule applied to the raw score and
the exact-match lab-positivity flag. -/
lemma assessTyphoidRisk_riskLevel (symptoms : List SymptomEntry)
    (tr : Option TyphoidTestResults) :
    (assessTyphoidRisk symptoms tr).riskLevel
      = specRiskTier (assessTyphoidRisk symptoms tr).score (typhoidLabPositive tr) := by
  simp only [assessTyphoidRisk, specRiskTier, typhoidLabPositive, Bool.or_eq_true,
    beq_iff_eq]

/-- C1 (amended).  For every symptom report and every disease, the computed
score equals the number of report entries whose name, lowercased, appears in
that disease's catalog set; a report with no catalog matches yields score 0,
and yields tier low provided no disease-specific confirmatory lab test is
reported as exactly "positive". -/
theorem claim1_score_is_catalog_count (symptoms : List SymptomEntry)
    (mtr : Option MalariaTestResults) (ttr : Option TyphoidTestResults) :
    (assessMalariaRisk symptoms mtr).score
        = symptoms.countP (fun s => malariaSymptoms.contains (toLowerCase s.symptom))
    ∧ (assessTyphoidRisk symptoms ttr).score
        = symptoms.countP (fun s => typhoidSymptoms.contains (toLowerCase s.symptom))
    ∧ (symptoms.countP (fun s => malariaSymptoms.contains (toLowerCase s.symptom)) = 0 →
        (assessMalariaRisk symptoms mtr).score = 0
        ∧ (malariaLabPositive mtr = false →
            (assessMalariaRisk symptoms mtr).riskLevel = "low"))
    ∧ (symptoms.countP (fun s => typhoidSymptoms.contains (toLowerCase s.symptom)) = 0 →
        (assessTyphoidRisk symptoms ttr).score = 0
        ∧ (typhoidLabPositive ttr = false →
            (assessTyphoidRisk symptoms ttr).riskLevel = "low")) := by
  refine ⟨assessMalariaRisk_score symptoms mtr, assessTyphoidRisk_score symptoms ttr,
    fun h0 => ⟨(assessMalariaRisk_score symptoms mtr).trans h0, fun hlab => ?_⟩,
    fun h0 => ⟨(assessTyphoidRisk_score symptoms ttr).trans h0, fun hlab => ?_⟩⟩
  · rw [assessMalariaRisk_riskLevel, (assessMalariaRisk_score symptoms mtr).trans h0, hlab]
    simp [specRiskTier]
  · rw [assessTyphoidRisk_riskLevel, (assessTyphoidRisk_score symptoms ttr).trans h0, hlab]
    simp [specRiskTier]

/-- C1 counterexample.  The report `[{symptom: "alien itch"}]` has no catalog
matches (score 0), yet with `testResults.rapidTest = "positive"` the malaria
tier is "high", not "low" as the claim's final clause states. -/
theorem claim1_counterexample :
    (assessMalariaRisk [{ symptom := "alien itch" }]
        (some { rapidTest := some "positive" })).score = 0
    ∧ (assessMalariaRisk [{ symptom := "alien itch" }]
        (some { rapidTest := some "positive" })).riskLevel ≠ "low" := by
  decide

/-- C1 witness: the amended claim evaluated on the no-match report
`[{symptom: "alien itch"}]` with no lab results. -/
theorem claim1_witness :
    (assessMalariaRisk [{ symptom := "alien itch" }] none).score = 0
    ∧ (assessMalariaRisk [{ symptom := "alien itch" }] none).riskLevel = "low"
    ∧ (assessTyphoidRisk [{ symptom := "alien itch" }] none).score = 0
    ∧ (assessTyphoidRisk [{ symptom := "alien itch" }] none).riskLevel = "low" := by
  have h := claim1_score_is_catalog_count [{ symptom := "alien itch" }] none none
  exact ⟨(h.2.2.1 (by decide)).1, (h.2.2.1 (by decide)).2 (by decide),
    (h.2.2.2 (by decide)).1, (h.2.2.2 (by decide)).2 (by decide)⟩

/-- C2.  For every symptom report and lab-result mapping, the tier follows the
precedence rule (high if score at least 5 or an exact "positive" confirmatory
test, else moderate if score at least 3, else low); a positive confirmatory
test forces "high", and with no positive confirmatory test the tier is exactly
what the score alone produces. -/
theorem claim2_tier_precedence (symptoms : List SymptomEntry)
    (mtr : Option MalariaTestResults) (ttr : Option TyphoidTestResults) :
    (assessMalariaRisk symptoms mtr).riskLevel
        = specRiskTier (assessMalariaRisk symptoms mtr).score (malariaLabPositive mtr)
    ∧ (assessTyphoidRisk symptoms ttr).riskLevel
        = specRiskTier (assessTyphoidRisk symptoms ttr).score (typhoidLabPositive ttr)
    ∧ (malariaLabPositive mtr = true →
        (assessMalariaRisk symptoms mtr).riskLevel = "high")
    ∧ (typhoidLabPositive ttr = true →
        (assessTyphoidRisk symptoms ttr).riskLevel = "high")
    ∧ (malariaLabPositive mtr = false →
        (assessMalariaRisk symptoms mtr).riskLevel
          = specRiskTier (assessMalariaRisk symptoms mtr).score false)
    ∧ (typhoidLabPositive ttr = false →
        (assessTyphoidRisk symptoms ttr).riskLevel
          = specRiskTier (assessTyphoidRisk symptoms ttr).score false) := by
  refine ⟨assessMalariaRisk_riskLevel symptoms mtr, assessTyphoidRisk_riskLevel symptoms ttr,
    fun h => ?_, fun h => ?_, fun h => ?_, fun h => ?_⟩
  · rw [assessMalariaRisk_riskLevel, h]; simp [specRiskTier]
  · rw [assessTyphoidRisk_riskLevel, h]; simp [specRiskTier]
  · rw [assessMalariaRisk_riskLevel, h]
  · rw [assessTyphoidRisk_riskLevel, h]

/-- C2 witness: a positive rapid test at score 0 forces malaria tier "high"; a
positive Widal test at score 0 forces typhoid tier "high"; with no positive
test the tier equals the score-only rule. -/
theorem claim2_witness :
    (assessMalariaRisk [] (some { rapidTest := some "positive" })).riskLevel = "high"
    ∧ (assessTyphoidRisk [] (some { widalTest := some "positive" })).riskLevel = "high"
    ∧ (assessMalariaRisk [{ symptom := "fever" }] none).riskLevel
        = specRiskTier (assessMalariaRisk [{ symptom := "fever" }] none).score false
    ∧ (assessTyphoidRisk [{ symptom := "fever" }] none).riskLevel
        = specRiskTier (assessTyphoidRisk [{ symptom := "fever" }] none).score false := by
  have h₁ := claim2_tier_precedence [] (some { rapidTest := some "positive" })
    (some { widalTest := some "positive" })
  have h₂ := claim2_tier_precedence [{ symptom := "fever" }] none none
  exact ⟨h₁.2.2.1 (by decide), h₁.2.2.2.1 (by decide),
    h₂.2.2.2.2.1 (by decide), h₂.2.2.2.2.2 (by decide)⟩

/-- C3.  A missing, non-array or empty `symptoms` field makes the standalone
assessment fail with the ValidationError response ("Symptoms array is
required") and no result object; a non-empty symptoms array yields a combined
result carrying both disease assessments. -/
theorem claim3_symptoms_required (tr : Option TestResultsField)
    (entries : List SymptomEntry) :
    getExpertSystemAssessment { symptoms := .missing, testResults := tr }
        = .error { message := "Symptoms array is required" }
    ∧ getExpertSystemAssessment { symptoms := .notArray, testResults := tr }
        = .error { message := "Symptoms array is required" }
    ∧ getExpertSystemAssessment { symptoms := .given [], testResults := tr }
        = .error { message := "Symptoms array is required" }
    ∧ (entries ≠ [] → ∃ d : AssessmentData,
        getExpertSystemAssessment { symptoms := .given entries, testResults := tr }
          = .ok d) := by
  refine ⟨rfl, rfl, rfl, fun h => ?_⟩
  simp only [getExpertSystemAssessment]
  rw [if_neg (fun hc => h (List.length_eq_zero.mp hc))]
  exact ⟨_, rfl⟩

/-- C3 witness: the one-symptom report is accepted and produces a result. -/
theorem claim3_witness :
    ∃ d : AssessmentData,
      getExpertSystemAssessment { symptoms := .given [{ symptom := "fever" }] }
        = .ok d :=
  (claim3_symptoms_required none [{ symptom := "fever" }]).2.2.2 (by decide)

/-- C4.  The recommendation is a total, deterministic function of the tier
alone: the three tier values map to the three fixed strings per disease, and
both the standalone endpoint's and the creation response's recommendation
fields equal that mapper applied to the result's own tier. -/
theorem claim4_recommendation_total (entries : List SymptomEntry)
    (tr : Option TestResultsField) (s : List SymptomEntry)
    (mSub : Option MalariaAssessmentSub) (tSub : Option TyphoidAssessmentSub) :
    malariaRecommendation "high" = "Immediate malaria testing and treatment recommended"
    ∧ malariaRecommendation "moderate" = "Consider malaria testing"
    ∧ malariaRecommendation "low" = "Low malaria risk"
    ∧ typhoidRecommendation "high" = "Immediate typhoid testing and treatment recommended"
    ∧ typhoidRecommendation "moderate" = "Consider typhoid testing"
    ∧ typhoidRecommendation "low" = "Low typhoid risk"
    ∧ (∀ d : AssessmentData,
        getExpertSystemAssessment { symptoms := .given entries, testResults := tr }
            = .ok d →
          d.malaria.recommendation = malariaRecommendation d.malaria.riskLevel
          ∧ d.typhoid.recommendation = typhoidRecommendation d.typhoid.riskLevel)
    ∧ (expertSystemRecommendations s mSub tSub).2.1
        = malariaRecommendation (expertSystemRecommendations s mSub tSub).1.riskLevel
    ∧ (expertSystemRecommendations s mSub tSub).2.2.2
        = typhoidRecommendation
            ((expertSystemRecommendations s mSub tSub).2.2.1).riskLevel := by
  refine ⟨by decide, by decide, by decide, by decide, by decide, by decide,
    fun d hd => ?_, rfl, rfl⟩
  simp only [getExpertSystemAssessment] at hd
  by_cases hlen : entries.length = 0
  · rw [if_pos hlen] at hd
    cases hd
  · rw [if_neg hlen] at hd
    cases hd
    exact ⟨rfl, rfl⟩

/-- C4 witness: the recommendation fields of a concrete accepted request equal
the tier mapper applied to the returned tiers. -/
theorem claim4_witness :
    ∃ d : AssessmentData,
      getExpertSystemAssessment { symptoms := .given [{ symptom := "fever" }] }
          = .ok d
      ∧ d.malaria.recommendation = malariaRecommendation d.malaria.riskLevel
      ∧ d.typhoid.recommendation = typhoidRecommendation d.typhoid.riskLevel := by
  obtain ⟨d, hd⟩ : ∃ d : AssessmentData,
      getExpertSystemAssessment { symptoms := .given [{ symptom := "fever" }] }
        = .ok d := ⟨_, rfl⟩
  exact ⟨d, hd,
    (claim4_recommendation_total [{ symptom := "fever" }] none [] none none).2.2.2.2.2.2.1
      d hd⟩

/-- C5.  For every accepted report, each disease's `matchingSymptoms` is
exactly the submitted name sequence filtered by lowercased catalog membership:
original submission order, original (unnormalized) spelling, duplicates kept;
in particular it is a sublist of the submitted names. -/
theorem claim5_matchingSymptoms (entries : List SymptomEntry)
    (tr : Option TestResultsField) (h : entries ≠ []) :
    ∃ d : AssessmentData,
      getExpertSystemAssessment { symptoms := .given entries, testResults := tr }
          = .ok d
      ∧ d.malaria.matchingSymptoms
          = (entries.map (fun s => s.symptom)).filter
              (fun n => malariaSymptoms.contains (toLowerCase n))
      ∧ d.typhoid.matchingSymptoms
          = (entries.map (fun s => s.symptom)).filter
              (fun n => typhoidSymptoms.contains (toLowerCase n))
      ∧ d.malaria.matchingSymptoms.Sublist (entries.map (fun s => s.symptom))
      ∧ d.typhoid.matchingSymptoms.Sublist (entries.map (fun s => s.symptom)) := by
  have hlen : ¬ entries.length = 0 := fun hc => h (List.length_eq_zero.mp hc)
  obtain ⟨d, hd⟩ : ∃ d : AssessmentData,
      getExpertSystemAssessment { symptoms := .given entries, testResults := tr }
        = .ok d := by
    simp only [getExpertSystemAssessment]
    rw [if_neg hlen]
    exact ⟨_, rfl⟩
  have hd' := hd
  simp only [getExpertSystemAssessment] at hd'
  rw [if_neg hlen] at hd'
  cases hd'
  refine ⟨_, hd, filter_entries_map_symptom malariaSymptoms entries,
    filter_entries_map_symptom typhoidSymptoms entries, ?_, ?_⟩
  · rw [filter_entries_map_symptom malariaSymptoms entries]
    exact List.filter_sublist _
  · rw [filter_entries_map_symptom typhoidSymptoms entries]
    exact List.filter_sublist _

/-- C5 witness: on `[FEVER, fever, alien itch]` both matching lists keep the
original spellings and the duplicate, in submission order. -/
theorem claim5_witness :
    ∃ d : AssessmentData,
      getExpertSystemAssessment
          { symptoms := .given
              [{ symptom := "FEVER" }, { symptom := "fever" }, { symptom := "alien itch" }] }
          = .ok d
      ∧ d.malaria.matchingSymptoms
          = (([{ symptom := "FEVER" }, { symptom := "fever" },
               { symptom := "alien itch" }] : List SymptomEntry).map
                (fun s => s.symptom)).filter
              (fun n => malariaSymptoms.contains (toLowerCase n))
      ∧ d.typhoid.matchingSymptoms
          = (([{ symptom := "FEVER" }, { symptom := "fever" },
               { symptom := "alien itch" }] : List SymptomEntry).map
                (fun s => s.symptom)).filter
              (fun n => typhoidSymptoms.contains (toLowerCase n))
      ∧ d.malaria.matchingSymptoms.Sublist
          (([{ symptom := "FEVER" }, { symptom := "fever" },
             { symptom := "alien itch" }] : List SymptomEntry).map (fun s => s.symptom))
      ∧ d.typhoid.matchingSymptoms.Sublist
          (([{ symptom := "FEVER" }, { symptom := "fever" },
             { symptom := "alien itch" }] : List SymptomEntry).map (fun s => s.symptom)) :=
  claim5_matchingSymptoms
    [{ symptom := "FEVER" }, { symptom := "fever" }, { symptom := "alien itch" }]
    none (by decide)

/-- C6 counterexample.  The entry `{symptom: "", severity: "bogus"}` violates
the route's validation rules (empty name, unknown severity), yet the
standalone assessment accepts the request and returns a full result instead
of a ValidationError: the handler never reads the collected validation
outcome. -/
theorem claim6_counterexample :
    expertSystemEntryValid { symptom := "", severity := some "bogus" } = false
    ∧ getExpertSystemAssessment
        { symptoms := .given [{ symptom := "", severity := some "bogus" }] }
      = .ok
        { malaria := { riskLevel := "low", score := 0, matchingSymptoms := []
                       recommendation := "Low malaria risk" }
          typhoid := { riskLevel := "low", score := 0, matchingSymptoms := []
                       recommendation := "Low typhoid risk" } } :=
  ⟨rfl, rfl⟩

/-- C6 (amended).  The diagnosis router declares per-entry rules (name length
2-100, severity in {mild, moderate, severe}), but `getExpertSystemAssessment`
never checks the collected validation result, so any non-empty symptoms array
is accepted and scored even when some entry violates those rules; only a
missing, non-array or empty symptoms field is rejected. -/
theorem claim6_entries_not_validated (entries : List SymptomEntry)
    (tr : Option TestResultsField) (h : entries ≠ [])
    (_hbad : ¬ ∀ e ∈ entries, expertSystemEntryValid e = true) :
    ∃ d : AssessmentData,
      getExpertSystemAssessment { symptoms := .given entries, testResults := tr }
          = .ok d
      ∧ d.malaria.score
          = entries.countP (fun s => malariaSymptoms.contains (toLowerCase s.symptom))
      ∧ d.typhoid.score
          = entries.countP (fun s => typhoidSymptoms.contains (toLowerCase s.symptom)) := by
  have hlen : ¬ entries.length = 0 := fun hc => h (List.length_eq_zero.mp hc)
  obtain ⟨d, hd⟩ : ∃ d : AssessmentData,
      getExpertSystemAssessment { symptoms := .given entries, testResults := tr }
        = .ok d := by
    simp only [getExpertSystemAssessment]
    rw [if_neg hlen]
    exact ⟨_, rfl⟩
  have hd' := hd
  simp only [getExpertSystemAssessment] at hd'
  rw [if_neg hlen] at hd'
  cases hd'
  exact ⟨_, hd, assessMalariaRisk_score entries (tr.bind (fun t => t.malaria)),
    assessTyphoidRisk_score entries (tr.bind (fun t => t.typhoid))⟩

/-- C6 witness: the invalid entry `{symptom: "", severity: "bogus"}` is
accepted and scored. -/
theorem claim6_witness :
    ∃ d : AssessmentData,
      getExpertSystemAssessment
          { symptoms := .given [{ symptom := "", severity := some "bogus" }] }
          = .ok d
      ∧ d.malaria.score
          = ([{ symptom := "", severity := some "bogus" }] : List SymptomEntry).countP
              (fun s => malariaSymptoms.contains (toLowerCase s.symptom))
      ∧ d.typhoid.score
          = ([{ symptom := "", severity := some "bogus" }] : List SymptomEntry).countP
              (fun s => typhoidSymptoms.contains (toLowerCase s.symptom)) :=
  claim6_entries_not_validated [{ symptom := "", severity := some "bogus" }] none
    (by decide) (by decide)

/-- Counting catalog matches over entries equals counting over the projected
name list. -/
lemma countP_entries_eq_countP_names (cat : List String) (l : List SymptomEntry) :
    l.countP (fun s => cat.contains (toLowerCase s.symptom))
      = (l.map (fun s => s.symptom)).countP (fun n => cat.contains (toLowerCase n)) := by
  rw [List.countP_map]
  rfl

/-- Two reports with the same name sequence get the same malaria assessment
for the same lab results. -/
lemma assessMalariaRisk_names (s₁ s₂ : List SymptomEntry)
    (m : Option MalariaTestResults)
    (hn : s₁.map (fun s => s.symptom) = s₂.map (fun s => s.symptom)) :
    assessMalariaRisk s₁ m = assessMalariaRisk s₂ m := by
  have hf : (s₁.filter (fun s => malariaSymptoms.contains (toLowerCase s.symptom))).length
      = (s₂.filter (fun s => malariaSymptoms.contains (toLowerCase s.symptom))).length := by
    rw [← List.countP_eq_length_filter, ← List.countP_eq_length_filter,
      countP_entries_eq_countP_names, countP_entries_eq_countP_names, hn]
  simp only [assessMalariaRisk]
  rw [hf]

/-- Two reports with the same name sequence get the same typhoid assessment
for the same lab results. -/
lemma assessTyphoidRisk_names (s₁ s₂ : List SymptomEntry)
    (t : Option TyphoidTestResults)
    (hn : s₁.map (fun s => s.symptom) = s₂.map (fun s => s.symptom)) :
    assessTyphoidRisk s₁ t = assessTyphoidRisk s₂ t := by
  have hf : (s₁.filter (fun s => typhoidSymptoms.contains (toLowerCase s.symptom))).length
      = (s₂.filter (fun s => typhoidSymptoms.contains (toLowerCase s.symptom))).length := by
    rw [← List.countP_eq_length_filter, ← List.countP_eq_length_filter,
      countP_entries_eq_countP_names, countP_entries_eq_countP_names, hn]
  simp only [assessTyphoidRisk]
  rw [hf]

/-- C7.  The full per-disease view returned by the standalone assessment is a
function of the submitted name sequence and that disease's lab mapping alone:
severities, durations and the other disease's lab results never change it. -/
theorem claim7_noninterference (s₁ s₂ : List SymptomEntry)
    (tr₁ tr₂ : Option TestResultsField)
    (hn : s₁.map (fun s => s.symptom) = s₂.map (fun s => s.symptom)) :
    (tr₁.bind (fun t => t.malaria) = tr₂.bind (fun t => t.malaria) →
      malariaOf (getExpertSystemAssessment { symptoms := .given s₁, testResults := tr₁ })
        = malariaOf (getExpertSystemAssessment { symptoms := .given s₂, testResults := tr₂ }))
    ∧ (tr₁.bind (fun t => t.typhoid) = tr₂.bind (fun t => t.typhoid) →
      typhoidOf (getExpertSystemAssessment { symptoms := .given s₁, testResults := tr₁ })
        = typhoidOf (getExpertSystemAssessment { symptoms := .given s₂, testResults := tr₂ })) := by
  have hlen : s₁.length = s₂.length := by
    have := congrArg List.length hn
    simpa using this
  have hmatchM : (s₁.filter (fun s =>
        malariaSymptoms.contains (toLowerCase s.symptom))).map (fun s => s.symptom)
      = (s₂.filter (fun s =>
        malariaSymptoms.contains (toLowerCase s.symptom))).map (fun s => s.symptom) := by
    rw [filter_entries_map_symptom, filter_entries_map_symptom, hn]
  have hmatchT : (s₁.filter (fun s =>
        typhoidSymptoms.contains (toLowerCase s.symptom))).map (fun s => s.symptom)
      = (s₂.filter (fun s =>
        typhoidSymptoms.contains (toLowerCase s.symptom))).map (fun s => s.symptom) := by
    rw [filter_entries_map_symptom, filter_entries_map_symptom, hn]
  constructor
  · intro hm
    by_cases h0 : s₁.length = 0
    · have h0' : s₂.length = 0 := hlen ▸ h0
      simp only [getExpertSystemAssessment, malariaOf]
      rw [if_pos h0, if_pos h0']
    · have h0' : ¬ s₂.length = 0 := fun hc => h0 (hlen.trans hc)
      simp only [getExpertSystemAssessment, malariaOf]
      rw [if_neg h0, if_neg h0', hm, assessMalariaRisk_names s₁ s₂ _ hn, hmatchM]
  · intro ht
    by_cases h0 : s₁.length = 0
    · have h0' : s₂.length = 0 := hlen ▸ h0
      simp only [getExpertSystemAssessment, typhoidOf]
      rw [if_pos h0, if_pos h0']
    · have h0' : ¬ s₂.length = 0 := fun hc => h0 (hlen.trans hc)
      simp only [getExpertSystemAssessment, typhoidOf]
      rw [if_neg h0, if_neg h0', ht, assessTyphoidRisk_names s₁ s₂ _ hn, hmatchT]

/-- C7 witness: changing an entry's severity and duration and the typhoid lab
results leaves the malaria view identical (and symmetrically for typhoid). -/
theorem claim7_witness :
    malariaOf (getExpertSystemAssessment
        { symptoms := .given [{ symptom := "fever", severity := some "mild" }] })
      = malariaOf (getExpertSystemAssessment
        { symptoms := .given
            [{ symptom := "fever", severity := some "severe", duration := some "3 days" }]
          testResults := some { typhoid := some { widalTest := some "positive" } } }) := by
  have h := claim7_noninterference
    [{ symptom := "fever", severity := some "mild" }]
    [{ symptom := "fever", severity := some "severe", duration := some "3 days" }]
    none (some { typhoid := some { widalTest := some "positive" } })
    (by decide)
  exact h.1 (by decide)

/-- Counting with a predicate the repeated element satisfies gives the
replication count. -/
lemma countP_replicate_pos {α : Type} (p : α → Bool) (n : Nat) (a : α)
    (h : p a = true) : (List.replicate n a).countP p = n := by
  induction n with
  | zero => rfl
  | succ k ih =>
    rw [List.replicate_succ, List.countP_cons, ih, h]
    simp

/-- C8.  Scoring is insertion-order invariant: permuting the report leaves
both whole assessments (score and tier) unchanged; and duplicates are not
collapsed: n copies of one catalog-matching entry score exactly n. -/
theorem claim8_order_and_duplicates (s₁ s₂ : List SymptomEntry)
    (mtr : Option MalariaTestResults) (ttr : Option TyphoidTestResults)
    (hp : s₁.Perm s₂) (n : Nat) (e e' : SymptomEntry)
    (he : malariaSymptoms.contains (toLowerCase e.symptom) = true)
    (he' : typhoidSymptoms.contains (toLowerCase e'.symptom) = true) :
    assessMalariaRisk s₁ mtr = assessMalariaRisk s₂ mtr
    ∧ assessTyphoidRisk s₁ ttr = assessTyphoidRisk s₂ ttr
    ∧ (assessMalariaRisk (List.replicate n e) mtr).score = n
    ∧ (assessTyphoidRisk (List.replicate n e') ttr).score = n := by
  refine ⟨?_, ?_, ?_, ?_⟩
  · have hf : (s₁.filter (fun s => malariaSymptoms.contains (toLowerCase s.symptom))).length
        = (s₂.filter (fun s => malariaSymptoms.contains (toLowerCase s.symptom))).length := by
      rw [← List.countP_eq_length_filter, ← List.countP_eq_length_filter]
      exact hp.countP_eq _
    simp only [assessMalariaRisk]
    rw [hf]
  · have hf : (s₁.filter (fun s => typhoidSymptoms.contains (toLowerCase s.symptom))).length
        = (s₂.filter (fun s => typhoidSymptoms.contains (toLowerCase s.symptom))).length := by
      rw [← List.countP_eq_length_filter, ← List.countP_eq_length_filter]
      exact hp.countP_eq _
    simp only [assessTyphoidRisk]
    rw [hf]
  · rw [assessMalariaRisk_score]
    exact countP_replicate_pos _ n e he
  · rw [assessTyphoidRisk_score]
    exact countP_replicate_pos _ n e' he'

/-- C8 witness: swapping two entries changes neither assessment, and three
copies of "fever" score 3 for both diseases. -/
theorem claim8_witness :
    assessMalariaRisk [{ symptom := "fever" }, { symptom := "rash" }] none
        = assessMalariaRisk [{ symptom := "rash" }, { symptom := "fever" }] none
    ∧ assessTyphoidRisk [{ symptom := "fever" }, { symptom := "rash" }] none
        = assessTyphoidRisk [{ symptom := "rash" }, { symptom := "fever" }] none
    ∧ (assessMalariaRisk (List.replicate 3 { symptom := "fever" }) none).score = 3
    ∧ (assessTyphoidRisk (List.replicate 3 { symptom := "fever" }) none).score = 3 :=
  claim8_order_and_duplicates
    [{ symptom := "fever" }, { symptom := "rash" }]
    [{ symptom := "rash" }, { symptom := "fever" }]
    none none (by decide) 3 { symptom := "fever" } { symptom := "fever" }
    (by decide) (by decide)

/-- C9 counterexample.  An update body that supplies a `malariaAssessment`
sub-object with lab results but no `riskLevel` still changes the stored tier:
`findByIdAndUpdate` replaces the sub-object wholesale, so the stored "high"
is dropped even though the caller supplied no risk level. -/
theorem claim9_counterexample :
    labOnlyUpdateBody.malariaAssessment.bind (fun a => a.riskLevel) = none
    ∧ storedHighDoc.malariaAssessment.bind (fun a => a.riskLevel) = some "high"
    ∧ (applyUpdate storedHighDoc labOnlyUpdateBody).malariaAssessment.bind
        (fun a => a.riskLevel) = none :=
  ⟨rfl, rfl, rfl⟩

/-- C9 (amended).  During creation only the computed risk tier is written into
each stored assessment sub-object (its other fields and every other body field
are carried over unchanged, while `doctor` is taken from the authenticated
user); an update never recomputes a tier: it leaves a stored sub-object
untouched when the body omits it, and otherwise replaces it wholesale with
exactly the caller-supplied sub-object (so the stored riskLevel becomes
whatever that sub-object carries, absent included). -/
theorem claim9_creation_update_frame (body : DiagnosisBody) (userId : String)
    (doc : DiagnosisDoc) (ub : UpdateBody) :
    (createDiagnosisData body userId).malariaAssessment
        = some { riskLevel := some (assessMalariaRisk body.symptoms
                    (body.malariaAssessment.bind (fun a => a.testResults))).riskLevel
                 testResults := body.malariaAssessment.bind (fun a => a.testResults)
                 species := body.malariaAssessment.bind (fun a => a.species) }
    ∧ (createDiagnosisData body userId).typhoidAssessment
        = some { riskLevel := some (assessTyphoidRisk body.symptoms
                    (body.typhoidAssessment.bind (fun a => a.testResults))).riskLevel
                 testResults := body.typhoidAssessment.bind (fun a => a.testResults) }
    ∧ (createDiagnosisData body userId).patient = body.patient
    ∧ (createDiagnosisData body userId).appointment = body.appointment
    ∧ (createDiagnosisData body userId).symptoms = body.symptoms
    ∧ (createDiagnosisData body userId).diagnosis = body.diagnosis
    ∧ (createDiagnosisData body userId).treatment = body.treatment
    ∧ (createDiagnosisData body userId).followUp = body.followUp
    ∧ (createDiagnosisData body userId).status = body.status
    ∧ (createDiagnosisData body userId).notes = body.notes
    ∧ (createDiagnosisData body userId).doctor = userId
    ∧ (ub.malariaAssessment = none →
        (applyUpdate doc ub).malariaAssessment = doc.malariaAssessment)
    ∧ (ub.typhoidAssessment = none →
        (applyUpdate doc ub).typhoidAssessment = doc.typhoidAssessment)
    ∧ (∀ sub, ub.malariaAssessment = some sub →
        (applyUpdate doc ub).malariaAssessment = some sub)
    ∧ (∀ sub, ub.typhoidAssessment = some sub →
        (applyUpdate doc ub).typhoidAssessment = some sub) := by
  refine ⟨?_, ?_, rfl, rfl, rfl, rfl, rfl, rfl, rfl, rfl, rfl,
    fun h => ?_, fun h => ?_, fun sub hs => ?_, fun sub hs => ?_⟩
  · cases hb : body.malariaAssessment <;>
      simp [createDiagnosisData, spreadMalariaSub, hb]
  · cases hb : body.typhoidAssessment <;>
      simp [createDiagnosisData, spreadTyphoidSub, hb]
  · simp [applyUpdate, h]
  · simp [applyUpdate, h]
  · simp [applyUpdate, hs]
  · simp [applyUpdate, hs]

/-- C9 witness: a concrete creation embeds the computed "high" tier while
keeping the caller's species and lab results; an empty update body leaves the
stored assessments untouched, and a body supplying a sub-object replaces it
exactly. -/
theorem claim9_witness :
    (createDiagnosisData
        { patient := "p1", appointment := "a1"
          symptoms := [{ symptom := "fever" }]
          malariaAssessment := some { testResults := some { rapidTest := some "positive" }
                                      species := some "P. vivax" } } "doctor9").malariaAssessment
      = some { riskLevel := some "high"
               testResults := some { rapidTest := some "positive" }
               species := some "P. vivax" }
    ∧ (applyUpdate storedHighDoc {}).malariaAssessment = storedHighDoc.malariaAssessment
    ∧ (applyUpdate storedHighDoc
        { typhoidAssessment := some { riskLevel := some "moderate" } }).typhoidAssessment
      = some { riskLevel := some "moderate" } := by
  have h₁ := claim9_creation_update_frame
    { patient := "p1", appointment := "a1"
      symptoms := [{ symptom := "fever" }]
      malariaAssessment := some { testResults := some { rapidTest := some "positive" }
                                  species := some "P. vivax" } } "doctor9"
    storedHighDoc ({} : UpdateBody)
  have h₂ := claim9_creation_update_frame
    { patient := "p1", appointment := "a1", symptoms := [] } "doctor9"
    storedHighDoc { typhoidAssessment := some { riskLevel := some "moderate" } }
  refine ⟨?_, h₁.2.2.2.2.2.2.2.2.2.2.2.1 rfl,
    h₂.2.2.2.2.2.2.2.2.2.2.2.2.2.2 { riskLevel := some "moderate" } rfl⟩
  rw [h₁.1]
  rfl

/-- C10.  A lab outcome elevates the tier to "high" exactly when its value is
the exact lowercase string "positive": the tier is "high" iff the score
reaches 5 or one of the disease's two confirmatory fields equals `"positive"`;
the case-variant `"Positive"` does not elevate (unlike symptom names, which
match case-insensitively: "FEVER" scores). -/
theorem claim10_lab_exact_match (s : List SymptomEntry)
    (mtr : Option MalariaTestResults) (ttr : Option TyphoidTestResults) :
    ((assessMalariaRisk s mtr).riskLevel = "high" ↔
      ((assessMalariaRisk s mtr).score ≥ 5
        ∨ mtr.bind (fun t => t.rapidTest) = some "positive"
        ∨ mtr.bind (fun t => t.microscopy) = some "positive"))
    ∧ ((assessTyphoidRisk s ttr).riskLevel = "high" ↔
      ((assessTyphoidRisk s ttr).score ≥ 5
        ∨ ttr.bind (fun t => t.widalTest) = some "positive"
        ∨ ttr.bind (fun t => t.bloodCulture) = some "positive"))
    ∧ (assessMalariaRisk [] (some { rapidTest := some "Positive" })).riskLevel = "low"
    ∧ (assessTyphoidRisk [] (some { widalTest := some "Positive" })).riskLevel = "low"
    ∧ (assessMalariaRisk [{ symptom := "FEVER" }] none).score = 1 := by
  refine ⟨?_, ?_, by decide, by decide, by decide⟩
  · simp only [assessMalariaRisk]
    split_ifs with hc h3 <;>
      first
        | exact iff_of_true rfl hc
        | exact iff_of_false (by decide) hc
  · simp only [assessTyphoidRisk]
    split_ifs with hc h3 <;>
      first
        | exact iff_of_true rfl hc
        | exact iff_of_false (by decide) hc

end MESMTF
